import Mathlib

/-!
Verification of the streaming capture pipeline of bes_log2bin.

The development shallowly embeds the producer/consumer core of
src/log2bin_script.py (the heartbeat variant) and, where a claim refers to
it, the error callback of src/bes_log_to_bin_script.py.  Mutable global
state is passed explicitly; timestamps are integers (seconds); file system
effects are modelled by an explicit file-system record; the outcomes of
fallible operations (open, write, flush, reopen) and the values returned by
the bounded queue pop are supplied by explicit event traces, so every run of
the embedded writer is a computable function of its inputs.
-/

namespace Log2Bin

/-- A byte chunk: one bytes object handed from the data callback to the
writer through the queue.  Byte values are naturals. -/
abbrev Chunk := List Nat

/-- Capacity of the global data queue: queue.Queue with maxsize 4096
(src/log2bin_script.py line 24). -/
def queueCapacity : Nat := 4096

/-- queue.Queue.put_nowait on the bounded queue: append when below capacity
and report acceptance, otherwise leave the queue unchanged and report a
drop.  The call returns immediately in both cases. -/
def putNowait (q : List Chunk) (c : Chunk) : List Chunk × Bool :=
  if q.length < queueCapacity then (q ++ [c], true) else (q, false)

/-- py_data_callback (src/log2bin_script.py lines 89-111): when the buffer
is non-null and the length positive, copy the bytes and push without
blocking; a full queue drops the chunk with a warning.  Result flag:
some true = accepted, some false = dropped with a warning, none = the
guard rejected the call (no push attempted). -/
def py_data_callback (q : List Chunk) (chunk : Chunk) : List Chunk × Option Bool :=
  if chunk = [] then (q, none)
  else
    let r := putNowait q chunk
    (r.1, some r.2)

/-- Feed a list of chunks to py_data_callback in order, starting from
queue q; returns the final queue and the number of dropped chunks. -/
def ingestAll (q : List Chunk) (cs : List Chunk) : List Chunk × Nat :=
  match cs with
  | [] => (q, 0)
  | c :: rest =>
    let r := py_data_callback q c
    let rec' := ingestAll r.1 rest
    (rec'.1, (if r.2 = some false then 1 else 0) + rec'.2)

/-- py_error_callback of src/log2bin_script.py (lines 114-124): it decodes
and logs the message; the code that would set a stop flag is commented out,
so the shutdown state is returned unchanged whatever the code and message. -/
def log2bin_py_error_callback (stopEvent : Bool) (_error_code : Int)
    (_error_message : Option String) : Bool :=
  stopEvent

/-- py_error_callback of src/bes_log_to_bin_script.py (lines 41-50): every
invocation sets g_stop_event, whatever the code and message. -/
def bes_py_error_callback (_stopEvent : Bool) (_error_code : Int)
    (_error_message : Option String) : Bool :=
  true

/-- The liveness register WriterThreadStatus (src/log2bin_script.py lines
33-63): running flag, last error, bytes written, last heartbeat time.
All accesses in the source hold the single lock, so the embedding treats
each method as one atomic step. -/
structure WriterThreadStatus where
  running : Bool
  error : Option String
  bytes_written : Nat
  last_heartbeat : Int
deriving DecidableEq, Repr

/-- The register as constructed (src/log2bin_script.py lines 34-39). -/
def initStatus : WriterThreadStatus :=
  { running := false, error := none, bytes_written := 0, last_heartbeat := 0 }

/-- WriterThreadStatus.update (src/log2bin_script.py lines 41-49): each
argument that is given replaces its field, and last_heartbeat is set to the
current time on every call, whichever subset of fields was given. -/
def WriterThreadStatus.update (s : WriterThreadStatus) (running : Option Bool)
    (error : Option String) (bytes_written : Option Nat) (now : Int) :
    WriterThreadStatus :=
  { running := running.getD s.running
    error := match error with
      | some e => some e
      | none => s.error
    bytes_written := bytes_written.getD s.bytes_written
    last_heartbeat := now }

/-- WriterThreadStatus.is_alive (src/log2bin_script.py lines 60-63). -/
def WriterThreadStatus.is_alive (s : WriterThreadStatus) (now : Int)
    (timeout_seconds : Int) : Bool :=
  s.running && (now - s.last_heartbeat < timeout_seconds)

/-- The supervisor reaction when it polls the worker (src/log2bin_script.py
lines 420-440), as a function of what it observes. -/
inductive SupervisorAction where
  /-- The worker thread is still executing: this check does nothing. -/
  | continueLoop
  /-- Inconsistency branch (lines 423-429): log, update the register with
  running false and the error, and break out of the supervising loop. -/
  | markStopAndBreak
  /-- Thread finished and queue empty (lines 430-434): log and break. -/
  | breakClean
  /-- Thread finished with data pending (lines 435-440): start a
  replacement writer thread bound to the same output path. -/
  | restartWorker
deriving DecidableEq, Repr

/-- The dead-thread check at the top of the supervisor loop
(src/log2bin_script.py lines 420-440). -/
def superviseDeadCheck (threadAlive : Bool) (statusRunning : Bool)
    (queueEmpty : Bool) : SupervisorAction :=
  if threadAlive then .continueLoop
  else if statusRunning then .markStopAndBreak
  else if queueEmpty then .breakClean
  else .restartWorker

/-- The file system seen through the one output path: the bytes currently
in the file, a fresh-handle counter, and the handles currently open. -/
structure FileSys where
  content : List Nat
  nextHandle : Nat
  openHandles : List Nat
deriving DecidableEq, Repr

/-- A file system with an empty output file and no open handle. -/
def emptyFs : FileSys := { content := [], nextHandle := 0, openHandles := [] }

/-- open(filename, "wb") succeeding: the file is truncated and a fresh
handle is returned. -/
def openWb (fs : FileSys) : FileSys × Nat :=
  ({ content := [], nextHandle := fs.nextHandle + 1,
     openHandles := fs.openHandles ++ [fs.nextHandle] }, fs.nextHandle)

/-- open(filename, "ab") succeeding: append mode, the bytes already in the
file are kept, and a fresh handle is returned. -/
def openAb (fs : FileSys) : FileSys × Nat :=
  ({ fs with
       nextHandle := fs.nextHandle + 1
       openHandles := fs.openHandles ++ [fs.nextHandle] }, fs.nextHandle)

/-- file.close(): the handle stops being open; closing an already closed
handle is a no-op, as in Python. -/
def closeHandle (fs : FileSys) (h : Nat) : FileSys :=
  { fs with openHandles := fs.openHandles.filter (fun x => x ≠ h) }

/-- A successful file.write on the handle the writer currently holds:
the bytes are appended to the file. -/
def writeBytes (fs : FileSys) (data : Chunk) : FileSys :=
  { fs with content := fs.content ++ data }

/-- One call of writer_status.update as the writer performs it: which
arguments were passed, and the time of the call. -/
structure UpdateCall where
  running : Option Bool
  error : Option String
  bytes_written : Option Nat
  time : Int
deriving DecidableEq, Repr

/-- Stand-ins for the formatted error messages of the source; only their
presence and distinctness matter to the claims. -/
def openErrMsg : String := "open output file failed"

/-- Message of the IOError raised after the last open retry
(src/log2bin_script.py line 156). -/
def openGiveUpMsg : String := "cannot open output file, retries exhausted"

/-- Flush-failure warning (src/log2bin_script.py line 175). -/
def flushErrMsg : String := "file flush failed"

/-- Write-failure message (src/log2bin_script.py lines 196 and 207). -/
def writeErrMsg : String := "file write failed"

/-- Reopen-failure message (src/log2bin_script.py line 217). -/
def reopenErrMsg : String := "cannot reopen file"

/-- Unknown-exception message (src/log2bin_script.py line 222). -/
def unknownErrMsg : String := "unknown exception in writer thread"

/-- What data_queue.get returned to the writer (src/log2bin_script.py line
181), or that the surrounding processing raised an unexpected exception. -/
inductive PopResult where
  /-- queue.Empty after the 0.5 s bounded wait. -/
  | empty
  /-- A data chunk. -/
  | chunk (data : Chunk)
  /-- stop_writer_signal, the None sentinel. -/
  | sentinel
  /-- An exception that is neither queue.Empty nor IOError. -/
  | raiseExc
deriving DecidableEq, Repr

/-- The environment of one iteration of the writer loop: the current time,
what the pop produced, and whether the write, flush and reopen system calls
of this iteration (those that are reached) succeed. -/
structure LoopEvent where
  time : Int
  pop : PopResult
  writeOk : Bool
  flushOk : Bool
  reopenOk : Bool
deriving DecidableEq, Repr

/-- The whole mutable state of one writer_thread_func activation: the file
system, the shared register, the trace of register updates made so far
(oldest first), the local byte counter, the handle the file_handle variable
holds, the handle the with statement captured at entry, the two local
timers, and the trace of sleeps performed (backoff seconds). -/
structure WriterState where
  fs : FileSys
  status : WriterThreadStatus
  updates : List UpdateCall
  written_bytes_total : Nat
  curHandle : Option Nat
  withHandle : Option Nat
  last_heartbeat : Int
  last_flush : Int
  sleeps : List Int
deriving DecidableEq, Repr

/-- Perform writer_status.update and record the call in the trace. -/
def recordUpdate (s : WriterState) (running : Option Bool)
    (error : Option String) (bytes_written : Option Nat) (now : Int) :
    WriterState :=
  { s with
    status := s.status.update running error bytes_written now
    updates := s.updates ++ [⟨running, error, bytes_written, now⟩] }

/-- Heartbeat step at the top of the loop (src/log2bin_script.py lines
164-167): when at least heartbeat_interval = 1 s elapsed, push the byte
count to the register and reset the local timer. -/
def stepHeartbeat (s : WriterState) (now : Int) : WriterState :=
  if now - s.last_heartbeat ≥ 1 then
    { recordUpdate s none none (some s.written_bytes_total) now with
      last_heartbeat := now }
  else s

/-- Periodic flush step (src/log2bin_script.py lines 170-177): when at
least flush_interval = 5 s elapsed, flush; a failed flush only records a
warning in the register and leaves the timer unchanged. -/
def stepFlush (s : WriterState) (e : LoopEvent) : WriterState :=
  if e.time - s.last_flush ≥ 5 then
    if e.flushOk then { s with last_flush := e.time }
    else recordUpdate s none (some flushErrMsg) none e.time
  else s

/-- How the worker terminated, or that the event trace ran out while the
loop was still running. -/
inductive WriterExit where
  /-- The sentinel was received: normal stop (line 183-185). -/
  | stopped
  /-- A write failed and the reopen failed too (line 220). -/
  | reopenFailed
  /-- An unknown exception reached the generic handler (line 226). -/
  | unknownExc
  /-- All open attempts failed (line 156 raising, caught at line 227). -/
  | openFailed
  /-- The supplied event trace ended with the loop still live. -/
  | outOfEvents
deriving DecidableEq, Repr

/-- Outcome of one iteration of the writer loop body. -/
inductive StepResult where
  /-- The loop continues with this state. -/
  | next (s : WriterState)
  /-- The loop breaks with this state and exit cause. -/
  | exit (s : WriterState) (e : WriterExit)
deriving DecidableEq, Repr

/-- One iteration of the while loop of writer_thread_func
(src/log2bin_script.py lines 162-226), in source order: heartbeat check,
flush check, pop, then chunk handling with the one-reopen recovery.  A
failed write records the error twice (inner handler line 198, outer handler
line 209), closes the current handle and reopens in append mode; a failed
reopen records the error and breaks. -/
def writerStep (s : WriterState) (e : LoopEvent) : StepResult :=
  let s := stepHeartbeat s e.time
  let s := stepFlush s e
  match e.pop with
  | .empty => .next s
  | .sentinel => .exit s .stopped
  | .raiseExc => .exit (recordUpdate s none (some unknownErrMsg) none e.time) .unknownExc
  | .chunk data =>
    if data = [] then .next s
    else if e.writeOk then
      let total := s.written_bytes_total + data.length
      let s := { s with fs := writeBytes s.fs data, written_bytes_total := total }
      .next (if total % (1024 * 1024) = 0 then
        recordUpdate s none none (some total) e.time
      else s)
    else
      let s := recordUpdate s none (some writeErrMsg) none e.time
      let s := recordUpdate s none (some writeErrMsg) none e.time
      let s := match s.curHandle with
        | some h => { s with fs := closeHandle s.fs h }
        | none => s
      if e.reopenOk then
        let r := openAb s.fs
        .next { s with fs := r.1, curHandle := some r.2 }
      else
        .exit (recordUpdate s none (some reopenErrMsg) none e.time) .reopenFailed

/-- The writer loop over an event trace.  A none exit means the trace was
exhausted with the loop still running. -/
def writerLoop (s : WriterState) : List LoopEvent → WriterState × Option WriterExit
  | [] => (s, none)
  | e :: rest =>
    match writerStep s e with
    | .next s' => writerLoop s' rest
    | .exit s' ex => (s', some ex)

/-- The environment of one open attempt: its time and whether the open
succeeds. -/
structure OpenEvent where
  time : Int
  ok : Bool
deriving DecidableEq, Repr

/-- Bound on open attempts: max_retry_count (src/log2bin_script.py line
136). -/
def max_retry_count : Nat := 3

/-- Result of the open retry loop. -/
inductive OpenOutcome where
  /-- open(filename, "wb") succeeded and returned this handle. -/
  | opened (s : WriterState) (h : Nat)
  /-- The last retry failed and the IOError of line 156 was raised. -/
  | failed (s : WriterState)
  /-- The supplied trace of open attempt outcomes ran out. -/
  | noEvents (s : WriterState)
deriving DecidableEq, Repr

/-- The state carried by an OpenOutcome. -/
def OpenOutcome.state : OpenOutcome → WriterState
  | .opened s _ => s
  | .failed s => s
  | .noEvents s => s

/-- Whether the open retry loop produced an open file. -/
def OpenOutcome.isOpened : OpenOutcome → Bool
  | .opened _ _ => true
  | _ => false

/-- The open retry loop (src/log2bin_script.py lines 146-159): open the
file in truncating write mode; on IOError record the error in the register,
and either raise after the max_retry_count-th failure or sleep 1 s and
retry. -/
def openLoop (s : WriterState) (retry_count : Nat) :
    List OpenEvent → OpenOutcome
  | [] => .noEvents s
  | e :: rest =>
    if e.ok then
      let r := openWb s.fs
      .opened { s with fs := r.1 } r.2
    else
      let rc := retry_count + 1
      let s1 := recordUpdate s none (some openErrMsg) none e.time
      if rc ≥ max_retry_count then .failed s1
      else openLoop { s1 with sleeps := s1.sleeps ++ [1] } rc rest

/-- The with-block and its epilogue: run the loop; when it breaks, the with
statement closes the handle it captured at entry — not the handle a
mid-session reopen may have installed — and the finally block sets the
register to not running with the final byte count. -/
def writerBody (s : WriterState) (loopEvs : List LoopEvent) (endTime : Int) :
    WriterState × WriterExit :=
  match writerLoop s loopEvs with
  | (s', none) => (s', .outOfEvents)
  | (s', some ex) =>
    let s' := match s'.withHandle with
      | some hw => { s' with fs := closeHandle s'.fs hw }
      | none => s'
    (recordUpdate s' (some false) none (some s'.written_bytes_total) endTime, ex)

/-- writer_thread_func (src/log2bin_script.py lines 128-234) as a function
of the prior file system, the register as the thread starts, the start
time, the traces driving the open attempts and the loop iterations, and
the time at which the epilogue runs.  On entry the register is set to
running with a zero byte count (line 139).  When the open retries are
exhausted, the raised IOError is caught by the outer handler (lines
227-230) and the finally block runs (line 233). -/
def writer_thread_func (fs0 : FileSys) (status0 : WriterThreadStatus)
    (startTime : Int) (openEvs : List OpenEvent) (loopEvs : List LoopEvent)
    (endTime : Int) : WriterState × WriterExit :=
  let s0 : WriterState :=
    { fs := fs0, status := status0, updates := [], written_bytes_total := 0,
      curHandle := none, withHandle := none, last_heartbeat := startTime,
      last_flush := startTime, sleeps := [] }
  let s0 := recordUpdate s0 (some true) none (some 0) startTime
  match openLoop s0 0 openEvs with
  | .noEvents s => (s, .outOfEvents)
  | .failed s =>
    let s := recordUpdate s (some false) (some openGiveUpMsg) none endTime
    (recordUpdate s (some false) none (some s.written_bytes_total) endTime, .openFailed)
  | .opened s h =>
    writerBody { s with curHandle := some h, withHandle := some h } loopEvs endTime

/-! Frame lemmas: the heartbeat step, the flush step and a register update
leave the file system, the byte counter and the handle variables alone. -/

@[simp] theorem recordUpdate_fs (s : WriterState) (r : Option Bool)
    (e : Option String) (b : Option Nat) (t : Int) :
    (recordUpdate s r e b t).fs = s.fs := rfl

@[simp] theorem recordUpdate_total (s : WriterState) (r : Option Bool)
    (e : Option String) (b : Option Nat) (t : Int) :
    (recordUpdate s r e b t).written_bytes_total = s.written_bytes_total := rfl

@[simp] theorem recordUpdate_cur (s : WriterState) (r : Option Bool)
    (e : Option String) (b : Option Nat) (t : Int) :
    (recordUpdate s r e b t).curHandle = s.curHandle := rfl

@[simp] theorem recordUpdate_withHandle (s : WriterState) (r : Option Bool)
    (e : Option String) (b : Option Nat) (t : Int) :
    (recordUpdate s r e b t).withHandle = s.withHandle := rfl

@[simp] theorem stepHeartbeat_fs (s : WriterState) (t : Int) :
    (stepHeartbeat s t).fs = s.fs := by
  unfold stepHeartbeat; split <;> rfl

@[simp] theorem stepHeartbeat_total (s : WriterState) (t : Int) :
    (stepHeartbeat s t).written_bytes_total = s.written_bytes_total := by
  unfold stepHeartbeat; split <;> rfl

@[simp] theorem stepHeartbeat_cur (s : WriterState) (t : Int) :
    (stepHeartbeat s t).curHandle = s.curHandle := by
  unfold stepHeartbeat; split <;> rfl

@[simp] theorem stepHeartbeat_withHandle (s : WriterState) (t : Int) :
    (stepHeartbeat s t).withHandle = s.withHandle := by
  unfold stepHeartbeat; split <;> rfl

@[simp] theorem stepFlush_fs (s : WriterState) (e : LoopEvent) :
    (stepFlush s e).fs = s.fs := by
  unfold stepFlush; split <;> [skip; rfl]; split <;> rfl

@[simp] theorem stepFlush_total (s : WriterState) (e : LoopEvent) :
    (stepFlush s e).written_bytes_total = s.written_bytes_total := by
  unfold stepFlush; split <;> [skip; rfl]; split <;> rfl

@[simp] theorem stepFlush_cur (s : WriterState) (e : LoopEvent) :
    (stepFlush s e).curHandle = s.curHandle := by
  unfold stepFlush; split <;> [skip; rfl]; split <;> rfl

@[simp] theorem stepFlush_withHandle (s : WriterState) (e : LoopEvent) :
    (stepFlush s e).withHandle = s.withHandle := by
  unfold stepFlush; split <;> [skip; rfl]; split <;> rfl

/-- Claim C1 counterexample: a replacement worker bound to a path whose file
still holds the bytes 1, 2, 3 of the previous partial session sees an empty
file right after its successful open — the file is truncated on restart,
so it is not the case that every previously written byte is still present. -/
theorem restart_truncates_counterexample :
    ((writer_thread_func ⟨[1, 2, 3], 5, []⟩ initStatus 0 [⟨0, true⟩] [] 0).1).fs.content
      = [] ∧ ([] : List Nat) ≠ [1, 2, 3] := by decide

/-- Claim C1 amended: the replacement worker opens the output path in
truncating write mode, exactly as a first worker does: whatever the file
held from the previous session, after any successful open attempt of the
Starting state the file content is empty.  Append mode is used only by the
mid-session reopen after a write failure. -/
theorem restart_truncates (s : WriterState) (e : OpenEvent)
    (tl : List OpenEvent) (he : e.ok = true) :
    (openLoop s 0 (e :: tl)).isOpened = true ∧
    ((openLoop s 0 (e :: tl)).state).fs.content = [] := by
  simp [openLoop, he, openWb, OpenOutcome.isOpened, OpenOutcome.state]

/-- Claim C1 witness: the amended theorem applied to a worker state whose
file already holds two bytes. -/
theorem restart_truncates_witness :
    (⟨0, true⟩ : OpenEvent).ok = true ∧
    ((openLoop ⟨⟨[9, 9], 3, []⟩, initStatus, [], 0, none, none, 0, 0, []⟩ 0
        [⟨0, true⟩]).isOpened = true ∧
      ((openLoop ⟨⟨[9, 9], 3, []⟩, initStatus, [], 0, none, none, 0, 0, []⟩ 0
        [⟨0, true⟩]).state).fs.content = []) :=
  ⟨rfl, restart_truncates ⟨⟨[9, 9], 3, []⟩, initStatus, [], 0, none, none, 0, 0, []⟩
    ⟨0, true⟩ [] rfl⟩

/-- Claim C2 counterexample: in src/log2bin_script.py the error callback
invoked with code 5 leaves the shutdown state false — the invocation is
absorbed as a logged message, so not every error-callback invocation
triggers the shutdown protocol. -/
theorem error_callback_only_logs_counterexample :
    log2bin_py_error_callback false 5 (some "overrun") = false ∧
    ¬ log2bin_py_error_callback false 5 (some "overrun") = true := by decide

/-- Claim C2 amended: only the bes_log_to_bin_script.py variant treats every
error-callback invocation as fatal, setting the stop event whatever the code
and message; the log2bin_script.py variant only logs and returns the
shutdown state unchanged. -/
theorem error_callback_policy (st : Bool) (code : Int) (msg : Option String) :
    bes_py_error_callback st code msg = true ∧
    log2bin_py_error_callback st code msg = st :=
  ⟨rfl, rfl⟩

/-- Claim C3 counterexample: with the worker thread no longer executing, the
register still reading running, and the queue non-empty, the supervisor
marks the register and breaks — it does not start a replacement worker. -/
theorem supervisor_inconsistency_counterexample :
    superviseDeadCheck false true false = SupervisorAction.markStopAndBreak ∧
    superviseDeadCheck false true false ≠ SupervisorAction.restartWorker := by decide

/-- Claim C3 amended: on a dead thread with the register reading running the
supervisor marks running false and stops supervising unconditionally,
whatever the queue holds; the restart path runs only when the register
already reads not running and the queue is non-empty. -/
theorem supervisor_dead_thread_policy (qe : Bool) :
    superviseDeadCheck false true qe = SupervisorAction.markStopAndBreak ∧
    superviseDeadCheck false false false = SupervisorAction.restartWorker ∧
    superviseDeadCheck false false true = SupervisorAction.breakClean := by
  cases qe <;> decide

/-- Claim C9 (code bug exhibit): after a write failure whose reopen succeeds,
a normal stop closes only the handle the with statement captured at entry,
not the reopened handle the worker currently writes through: worker number
1 terminates as stopped with handle 1 still open.  The register part of the
claim does hold: running is false with the final byte count. -/
theorem reopened_handle_leak :
    (writer_thread_func emptyFs initStatus 0 [⟨0, true⟩]
        [⟨0, .chunk [7], false, true, true⟩, ⟨0, .sentinel, true, true, true⟩] 9).2
      = WriterExit.stopped ∧
    ((writer_thread_func emptyFs initStatus 0 [⟨0, true⟩]
        [⟨0, .chunk [7], false, true, true⟩, ⟨0, .sentinel, true, true, true⟩] 9).1).fs.openHandles
      = [1] ∧
    ((writer_thread_func emptyFs initStatus 0 [⟨0, true⟩]
        [⟨0, .chunk [7], false, true, true⟩, ⟨0, .sentinel, true, true, true⟩] 9).1).status.running
      = false ∧
    ((writer_thread_func emptyFs initStatus 0 [⟨0, true⟩]
        [⟨0, .chunk [7], false, true, true⟩, ⟨0, .sentinel, true, true, true⟩] 9).1).status.bytes_written
      = 0 := by decide

/-- Claim C10: every call of WriterThreadStatus.update sets last_heartbeat
to the time of the call, whichever subset of fields is given; an update that
only records an error string changes neither the running flag nor the byte
count, records the error, and counts as a heartbeat: with the running flag
set, is_alive still holds at any later time within the timeout. -/
theorem update_refreshes_heartbeat (s : WriterThreadStatus) (r : Option Bool)
    (e : Option String) (b : Option Nat) (msg : String)
    (now now' timeout : Int) (hr : s.running = true)
    (ht : now' - now < timeout) :
    (s.update r e b now).last_heartbeat = now ∧
    (s.update none (some msg) none now).running = s.running ∧
    (s.update none (some msg) none now).bytes_written = s.bytes_written ∧
    (s.update none (some msg) none now).error = some msg ∧
    (s.update none (some msg) none now).is_alive now' timeout = true := by
  refine ⟨rfl, rfl, rfl, rfl, ?_⟩
  simp [WriterThreadStatus.update, WriterThreadStatus.is_alive, hr]
  exact ht

/-- Claim C10 witness: a register that is running and keeps failing: the
error-only update at time 2 keeps it alive at time 3 for a 5 s timeout. -/
theorem update_refreshes_heartbeat_witness :
    ({ initStatus with running := true } : WriterThreadStatus).running = true ∧
    (3 : Int) - 2 < 5 ∧
    (({ initStatus with running := true } : WriterThreadStatus).update
        (some true) none (some 7) 2).last_heartbeat = 2 ∧
    (({ initStatus with running := true } : WriterThreadStatus).update
        none (some "disk error") none 2).is_alive 3 5 = true := by
  have h := update_refreshes_heartbeat { initStatus with running := true }
    (some true) none (some 7) "disk error" 2 3 5 rfl (by decide)
  exact ⟨rfl, by decide, h.1, h.2.2.2.2⟩

/-- General behaviour of a burst of data callbacks with no consumer running:
starting below capacity, the queue takes the chunks in order up to the free
space and every further chunk is dropped. -/
theorem ingestAll_spec (cs : List Chunk) : ∀ q : List Chunk,
    q.length ≤ queueCapacity → (∀ c ∈ cs, c ≠ []) →
    (ingestAll q cs).1 = q ++ cs.take (queueCapacity - q.length) ∧
    (ingestAll q cs).2 = cs.length - (queueCapacity - q.length) := by
  induction cs with
  | nil => intro q hq hne; simp [ingestAll]
  | cons c rest ih =>
    intro q hq hne
    have hc : c ≠ [] := hne c (by simp)
    by_cases h : q.length < queueCapacity
    · obtain ⟨h1, h2⟩ := ih (q ++ [c]) (by simp; omega)
        (fun x hx => hne x (by simp [hx]))
      have hk : queueCapacity - q.length = (queueCapacity - (q.length + 1)) + 1 := by
        omega
      refine ⟨?_, ?_⟩
      · simp [ingestAll, py_data_callback, putNowait, hc, h, h1, hk,
          List.take_succ_cons]
      · simp [ingestAll, py_data_callback, putNowait, hc, h, h2]
        omega
    · have hq' : q.length = queueCapacity := by omega
      obtain ⟨h1, h2⟩ := ih q hq (fun x hx => hne x (by simp [hx]))
      refine ⟨?_, ?_⟩
      · simp [ingestAll, py_data_callback, putNowait, hc, h, h1, hq']
      · simp [ingestAll, py_data_callback, putNowait, hc, h, h2, hq']
        omega

/-- Claim C5: the ingestion push never blocks (it is a total step function
of the queue); pushing queueCapacity + k non-empty chunks with no
consumption accepts exactly the first queueCapacity chunks, in order, and
drops exactly k. -/
theorem ingest_overflow_exact (cs : List Chunk) (k : Nat)
    (hlen : cs.length = queueCapacity + k) (hne : ∀ c ∈ cs, c ≠ []) :
    (ingestAll [] cs).1 = cs.take queueCapacity ∧
    (ingestAll [] cs).2 = k := by
  obtain ⟨h1, h2⟩ := ingestAll_spec cs [] (by simp) hne
  refine ⟨?_, ?_⟩
  · rw [h1, List.length_nil, Nat.sub_zero, List.nil_append]
  · simp only [h2, List.length_nil, Nat.sub_zero]
    omega

/-- Claim C5 witness: 4097 one-byte chunks pushed with no consumption:
the first 4096 are accepted, exactly one is dropped. -/
theorem ingest_overflow_exact_witness :
    (List.replicate 4097 ([0] : Chunk)).length = queueCapacity + 1 ∧
    (∀ c ∈ List.replicate 4097 ([0] : Chunk), c ≠ []) ∧
    ((ingestAll [] (List.replicate 4097 ([0] : Chunk))).1
        = (List.replicate 4097 ([0] : Chunk)).take queueCapacity ∧
      (ingestAll [] (List.replicate 4097 ([0] : Chunk))).2 = 1) := by
  have ha : (List.replicate 4097 ([0] : Chunk)).length = queueCapacity + 1 := by
    rw [List.length_replicate]; rfl
  have hb : ∀ c ∈ List.replicate 4097 ([0] : Chunk), c ≠ [] := by
    intro c hc
    rw [List.eq_of_mem_replicate hc]
    simp
  exact ⟨ha, hb, ingest_overflow_exact _ 1 ha hb⟩

/-- The loop events of a fault-free session: each queued chunk is popped in
order (all writes and flushes succeed), every iteration at the start time. -/
def chunkEvents : List Chunk → List LoopEvent
  | [] => []
  | c :: cs => ⟨0, .chunk c, true, true, true⟩ :: chunkEvents cs

/-- The final pop of a graceful shutdown: the sentinel. -/
def sentinelEvent : LoopEvent := ⟨0, .sentinel, true, true, true⟩

@[simp] theorem chunkEvents_nil : chunkEvents [] = [] := rfl

@[simp] theorem chunkEvents_cons (c : Chunk) (cs : List Chunk) :
    chunkEvents (c :: cs)
      = (⟨0, .chunk c, true, true, true⟩ : LoopEvent) :: chunkEvents cs := rfl

/-- In a fault-free session the writer loop stops on the final sentinel. -/
theorem writerLoop_fault_free_exit (cs : List Chunk) : ∀ s : WriterState,
    (writerLoop s (chunkEvents cs ++ [sentinelEvent])).2 = some .stopped := by
  induction cs with
  | nil => intro s; simp [writerLoop, writerStep, sentinelEvent]
  | cons c rest ih =>
    intro s
    by_cases hc : c = [] <;>
      simp [writerLoop, writerStep, hc, ih]

/-- In a fault-free session the writer loop appends exactly the
concatenation of the queued chunks, in queue order, to the file. -/
theorem writerLoop_fault_free_content (cs : List Chunk) : ∀ s : WriterState,
    ((writerLoop s (chunkEvents cs ++ [sentinelEvent])).1).fs.content
      = s.fs.content ++ cs.flatten := by
  induction cs with
  | nil => intro s; simp [writerLoop, writerStep, sentinelEvent]
  | cons c rest ih =>
    intro s
    by_cases hc : c = []
    · simp [writerLoop, writerStep, hc, ih]
    · simp [writerLoop, writerStep, hc, ih, writeBytes]
      split <;> simp [ih, writeBytes]


/-- Claim C4 counterexample: two one-byte chunks are delivered with no
queue overflow, but a write failure on the first chunk (recovered by the
reopen) means the file ends the session holding only the second byte: the
concatenation written differs from the concatenation delivered. -/
theorem round_trip_counterexample :
    (ingestAll [] [[1], [2]]).1 = [[1], [2]] ∧
    (ingestAll [] [[1], [2]]).2 = 0 ∧
    ((writer_thread_func emptyFs initStatus 0 [⟨0, true⟩]
        [⟨0, .chunk [1], false, true, true⟩, ⟨0, .chunk [2], true, true, true⟩,
         ⟨0, .sentinel, true, true, true⟩] 0).1).fs.content = [2] ∧
    ([2] : List Nat) ≠ List.flatten [[1], [2]] := by decide

/-- The with-block of a fault-free session: graceful stop, and the file
gains exactly the concatenation of the queued chunks. -/
theorem writerBody_graceful (cs : List Chunk) (s : WriterState) (tEnd : Int) :
    (writerBody s (chunkEvents cs ++ [sentinelEvent]) tEnd).2 = .stopped ∧
    ((writerBody s (chunkEvents cs ++ [sentinelEvent]) tEnd).1).fs.content
      = s.fs.content ++ cs.flatten := by
  have he := writerLoop_fault_free_exit cs s
  have hcont := writerLoop_fault_free_content cs s
  unfold writerBody
  rcases hres : writerLoop s (chunkEvents cs ++ [sentinelEvent]) with ⟨s', ex⟩
  rw [hres] at he hcont
  simp only at he hcont
  subst he
  rcases hwith : s'.withHandle with _ | hw <;>
    simp [hwith, closeHandle, hcont]

/-- Claim C4 amended: in a session where no push overflows the queue and
every write succeeds, the chunks are accepted in push order (FIFO, none
dropped) and the bytes found in the file at the graceful stop are exactly
the concatenation of the chunks delivered to the data callback. -/
theorem round_trip_no_failures (cs : List Chunk)
    (hcap : cs.length ≤ queueCapacity) (hne : ∀ c ∈ cs, c ≠ []) :
    (ingestAll [] cs).1 = cs ∧
    (ingestAll [] cs).2 = 0 ∧
    (writer_thread_func emptyFs initStatus 0 [⟨0, true⟩]
        (chunkEvents (ingestAll [] cs).1 ++ [sentinelEvent]) 0).2
      = WriterExit.stopped ∧
    ((writer_thread_func emptyFs initStatus 0 [⟨0, true⟩]
        (chunkEvents (ingestAll [] cs).1 ++ [sentinelEvent]) 0).1).fs.content
      = cs.flatten := by
  obtain ⟨h1, h2⟩ := ingestAll_spec cs [] (by simp) hne
  have hq : (ingestAll [] cs).1 = cs := by
    rw [h1, List.length_nil, Nat.sub_zero, List.nil_append,
      List.take_of_length_le hcap]
  have hd : (ingestAll [] cs).2 = 0 := by
    rw [h2, List.length_nil, Nat.sub_zero]
    omega
  refine ⟨hq, hd, ?_, ?_⟩ <;>
  · rw [hq]
    simp only [writer_thread_func, openLoop, openWb, emptyFs]
    obtain ⟨ha, hb⟩ := writerBody_graceful cs
      { fs := { content := [], nextHandle := 0 + 1, openHandles := [] ++ [0] },
        status := (initStatus.update (some true) none (some 0) 0),
        updates := [] ++ [⟨some true, none, some 0, 0⟩], written_bytes_total := 0,
        curHandle := some 0, withHandle := some 0, last_heartbeat := 0,
        last_flush := 0, sleeps := [] } 0
    simp_all [recordUpdate]

/-- Claim C4 witness: the amended round trip for the two chunks 1 and 2, 3. -/
theorem round_trip_no_failures_witness :
    ([[1], [2, 3]] : List Chunk).length ≤ queueCapacity ∧
    (∀ c ∈ ([[1], [2, 3]] : List Chunk), c ≠ []) ∧
    ((ingestAll [] [[1], [2, 3]]).1 = [[1], [2, 3]] ∧
      (ingestAll [] [[1], [2, 3]]).2 = 0 ∧
      (writer_thread_func emptyFs initStatus 0 [⟨0, true⟩]
          (chunkEvents (ingestAll [] [[1], [2, 3]]).1 ++ [sentinelEvent]) 0).2
        = WriterExit.stopped ∧
      ((writer_thread_func emptyFs initStatus 0 [⟨0, true⟩]
          (chunkEvents (ingestAll [] [[1], [2, 3]]).1 ++ [sentinelEvent]) 0).1).fs.content
        = List.flatten [[1], [2, 3]]) :=
  ⟨by decide, by decide, round_trip_no_failures [[1], [2, 3]] (by decide) (by decide)⟩

/-- Claim C7: in the Starting state a failed open is retried with a 1 s
sleep between consecutive attempts, at most three attempts are made (a
fourth attempt outcome is never consulted), exhausting the three attempts
ends the worker as Failed with the open error recorded in the register and
running false, and a successful open on any of the three attempts leaves
the retry loop with an open file (the worker proceeds to the Running
loop). -/
theorem open_retry_policy (fs0 : FileSys) (st0 : WriterThreadStatus)
    (t0 tEnd : Int) (e1 e2 e3 : OpenEvent) (rest : List OpenEvent)
    (loopEvs : List LoopEvent)
    (h1 : e1.ok = false) (h2 : e2.ok = false) (h3 : e3.ok = false) :
    writer_thread_func fs0 st0 t0 (e1 :: e2 :: e3 :: rest) loopEvs tEnd
      = writer_thread_func fs0 st0 t0 [e1, e2, e3] loopEvs tEnd ∧
    (writer_thread_func fs0 st0 t0 [e1, e2, e3] loopEvs tEnd).2
      = WriterExit.openFailed ∧
    ((writer_thread_func fs0 st0 t0 [e1, e2, e3] loopEvs tEnd).1).status.running
      = false ∧
    ((writer_thread_func fs0 st0 t0 [e1, e2, e3] loopEvs tEnd).1).status.error
      = some openGiveUpMsg ∧
    ((writer_thread_func fs0 st0 t0 [e1, e2, e3] loopEvs tEnd).1).sleeps = [1, 1] ∧
    (∀ (s : WriterState) (e : OpenEvent) (tl : List OpenEvent), e.ok = true →
      (openLoop s 0 (e :: tl)).isOpened = true ∧
      (openLoop s 0 (e1 :: e :: tl)).isOpened = true ∧
      (openLoop s 0 (e1 :: e2 :: e :: tl)).isOpened = true) := by
  refine ⟨?_, ?_, ?_, ?_, ?_, ?_⟩
  · simp [writer_thread_func, openLoop, h1, h2, h3, max_retry_count]
  · simp [writer_thread_func, openLoop, h1, h2, h3, max_retry_count]
  · simp [writer_thread_func, openLoop, h1, h2, h3, max_retry_count,
      recordUpdate, WriterThreadStatus.update]
  · simp [writer_thread_func, openLoop, h1, h2, h3, max_retry_count,
      recordUpdate, WriterThreadStatus.update]
  · simp [writer_thread_func, openLoop, h1, h2, h3, max_retry_count,
      recordUpdate]
  · intro s e tl he
    refine ⟨?_, ?_, ?_⟩ <;>
      simp [openLoop, h1, h2, he, max_retry_count, OpenOutcome.isOpened]

/-- Claim C7 witness: three failing attempts at times 0, 1, 2, and a
succeeding attempt. -/
theorem open_retry_policy_witness :
    (⟨0, false⟩ : OpenEvent).ok = false ∧
    (⟨1, false⟩ : OpenEvent).ok = false ∧
    (⟨2, false⟩ : OpenEvent).ok = false ∧
    ((writer_thread_func emptyFs initStatus 0
        [⟨0, false⟩, ⟨1, false⟩, ⟨2, false⟩, ⟨3, true⟩] [] 9)
      = writer_thread_func emptyFs initStatus 0
        [⟨0, false⟩, ⟨1, false⟩, ⟨2, false⟩] [] 9 ∧
      (writer_thread_func emptyFs initStatus 0
        [⟨0, false⟩, ⟨1, false⟩, ⟨2, false⟩] [] 9).2 = WriterExit.openFailed ∧
      ((writer_thread_func emptyFs initStatus 0
        [⟨0, false⟩, ⟨1, false⟩, ⟨2, false⟩] [] 9).1).status.running = false ∧
      ((writer_thread_func emptyFs initStatus 0
        [⟨0, false⟩, ⟨1, false⟩, ⟨2, false⟩] [] 9).1).status.error
        = some openGiveUpMsg ∧
      ((writer_thread_func emptyFs initStatus 0
        [⟨0, false⟩, ⟨1, false⟩, ⟨2, false⟩] [] 9).1).sleeps = [1, 1] ∧
      (∀ (s : WriterState) (e : OpenEvent) (tl : List OpenEvent), e.ok = true →
        (openLoop s 0 (e :: tl)).isOpened = true ∧
        (openLoop s 0 (⟨0, false⟩ :: e :: tl)).isOpened = true ∧
        (openLoop s 0 (⟨0, false⟩ :: ⟨1, false⟩ :: e :: tl)).isOpened = true)) :=
  ⟨rfl, rfl, rfl,
    open_retry_policy emptyFs initStatus 0 9 ⟨0, false⟩ ⟨1, false⟩ ⟨2, false⟩
      [⟨3, true⟩] [] rfl rfl rfl⟩

/-- The state carried by a StepResult. -/
def StepResult.state : StepResult → WriterState
  | .next s => s
  | .exit s _ => s

/-- Whether the loop iteration continued. -/
def StepResult.isNext : StepResult → Bool
  | .next _ => true
  | .exit _ _ => false

/-- Claim C8: a failed write of a non-empty chunk triggers exactly one
recovery: the current handle is closed and the file reopened in append
mode.  A successful reopen allocates exactly one fresh handle, keeps every
byte already in the file and the byte counter, records the write error, and
the loop continues running; a failed reopen allocates no handle, records
the reopen error, and the loop terminates with the reopenFailed exit. -/
theorem write_failure_one_recovery (s : WriterState) (e : LoopEvent)
    (rest : List LoopEvent) (d : Chunk) (hpop : e.pop = .chunk d)
    (hd : d ≠ []) (hw : e.writeOk = false) :
    (e.reopenOk = true →
      (writerStep s e).isNext = true ∧
      ((writerStep s e).state).fs.content = s.fs.content ∧
      ((writerStep s e).state).written_bytes_total = s.written_bytes_total ∧
      ((writerStep s e).state).fs.nextHandle = s.fs.nextHandle + 1 ∧
      ((writerStep s e).state).curHandle = some s.fs.nextHandle ∧
      ((writerStep s e).state).status.error = some writeErrMsg ∧
      writerLoop s (e :: rest) = writerLoop ((writerStep s e).state) rest) ∧
    (e.reopenOk = false →
      (writerStep s e).isNext = false ∧
      ((writerStep s e).state).status.error = some reopenErrMsg ∧
      ((writerStep s e).state).fs.content = s.fs.content ∧
      ((writerStep s e).state).fs.nextHandle = s.fs.nextHandle ∧
      writerLoop s (e :: rest) = (((writerStep s e).state), some WriterExit.reopenFailed)) := by
  constructor
  · intro hro
    refine ⟨?_, ?_, ?_, ?_, ?_, ?_, ?_⟩ <;>
      rcases hcur : s.curHandle with _ | h <;>
        simp [writerStep, writerLoop, hpop, hd, hw, hro, hcur, openAb,
          closeHandle, StepResult.state, StepResult.isNext, recordUpdate,
          WriterThreadStatus.update]
  · intro hro
    refine ⟨?_, ?_, ?_, ?_, ?_⟩ <;>
      rcases hcur : s.curHandle with _ | h <;>
        simp [writerStep, writerLoop, hpop, hd, hw, hro, hcur, openAb,
          closeHandle, StepResult.state, StepResult.isNext, recordUpdate,
          WriterThreadStatus.update]

/-- Claim C8 witness: the recovery step applied to a running state holding
handle 0, for a failed write of the chunk 7 whose reopen succeeds. -/
theorem write_failure_one_recovery_witness :
    (⟨5, .chunk [7], false, true, true⟩ : LoopEvent).pop = .chunk [7] ∧
    ([7] : Chunk) ≠ [] ∧
    (⟨5, .chunk [7], false, true, true⟩ : LoopEvent).writeOk = false ∧
    (((⟨5, .chunk [7], false, true, true⟩ : LoopEvent).reopenOk = true →
      (writerStep ⟨⟨[9], 1, [0]⟩, initStatus, [], 1, some 0, some 0, 0, 0, []⟩
          ⟨5, .chunk [7], false, true, true⟩).isNext = true ∧
      ((writerStep ⟨⟨[9], 1, [0]⟩, initStatus, [], 1, some 0, some 0, 0, 0, []⟩
          ⟨5, .chunk [7], false, true, true⟩).state).fs.content
        = (⟨⟨[9], 1, [0]⟩, initStatus, [], 1, some 0, some 0, 0, 0, []⟩ : WriterState).fs.content ∧
      ((writerStep ⟨⟨[9], 1, [0]⟩, initStatus, [], 1, some 0, some 0, 0, 0, []⟩
          ⟨5, .chunk [7], false, true, true⟩).state).written_bytes_total
        = (⟨⟨[9], 1, [0]⟩, initStatus, [], 1, some 0, some 0, 0, 0, []⟩ : WriterState).written_bytes_total ∧
      ((writerStep ⟨⟨[9], 1, [0]⟩, initStatus, [], 1, some 0, some 0, 0, 0, []⟩
          ⟨5, .chunk [7], false, true, true⟩).state).fs.nextHandle
        = (⟨⟨[9], 1, [0]⟩, initStatus, [], 1, some 0, some 0, 0, 0, []⟩ : WriterState).fs.nextHandle + 1 ∧
      ((writerStep ⟨⟨[9], 1, [0]⟩, initStatus, [], 1, some 0, some 0, 0, 0, []⟩
          ⟨5, .chunk [7], false, true, true⟩).state).curHandle
        = some (⟨⟨[9], 1, [0]⟩, initStatus, [], 1, some 0, some 0, 0, 0, []⟩ : WriterState).fs.nextHandle ∧
      ((writerStep ⟨⟨[9], 1, [0]⟩, initStatus, [], 1, some 0, some 0, 0, 0, []⟩
          ⟨5, .chunk [7], false, true, true⟩).state).status.error = some writeErrMsg ∧
      writerLoop ⟨⟨[9], 1, [0]⟩, initStatus, [], 1, some 0, some 0, 0, 0, []⟩
          (⟨5, .chunk [7], false, true, true⟩ :: [])
        = writerLoop ((writerStep ⟨⟨[9], 1, [0]⟩, initStatus, [], 1, some 0, some 0, 0, 0, []⟩
            ⟨5, .chunk [7], false, true, true⟩).state) []) ∧
    ((⟨5, .chunk [7], false, true, true⟩ : LoopEvent).reopenOk = false →
      (writerStep ⟨⟨[9], 1, [0]⟩, initStatus, [], 1, some 0, some 0, 0, 0, []⟩
          ⟨5, .chunk [7], false, true, true⟩).isNext = false ∧
      ((writerStep ⟨⟨[9], 1, [0]⟩, initStatus, [], 1, some 0, some 0, 0, 0, []⟩
          ⟨5, .chunk [7], false, true, true⟩).state).status.error = some reopenErrMsg ∧
      ((writerStep ⟨⟨[9], 1, [0]⟩, initStatus, [], 1, some 0, some 0, 0, 0, []⟩
          ⟨5, .chunk [7], false, true, true⟩).state).fs.content
        = (⟨⟨[9], 1, [0]⟩, initStatus, [], 1, some 0, some 0, 0, 0, []⟩ : WriterState).fs.content ∧
      ((writerStep ⟨⟨[9], 1, [0]⟩, initStatus, [], 1, some 0, some 0, 0, 0, []⟩
          ⟨5, .chunk [7], false, true, true⟩).state).fs.nextHandle
        = (⟨⟨[9], 1, [0]⟩, initStatus, [], 1, some 0, some 0, 0, 0, []⟩ : WriterState).fs.nextHandle ∧
      writerLoop ⟨⟨[9], 1, [0]⟩, initStatus, [], 1, some 0, some 0, 0, 0, []⟩
          (⟨5, .chunk [7], false, true, true⟩ :: [])
        = (((writerStep ⟨⟨[9], 1, [0]⟩, initStatus, [], 1, some 0, some 0, 0, 0, []⟩
            ⟨5, .chunk [7], false, true, true⟩).state), some WriterExit.reopenFailed))) :=
  ⟨rfl, by decide, rfl,
    write_failure_one_recovery ⟨⟨[9], 1, [0]⟩, initStatus, [], 1, some 0, some 0, 0, 0, []⟩
      ⟨5, .chunk [7], false, true, true⟩ [] [7] rfl (by decide) rfl⟩

/-- Claim C6 (code bug exhibit): with a 1048575-byte chunk followed by a
2-byte chunk, both written successfully, the running total crosses the
megabyte boundary 1048576, yet the worker pushes no byte count to the
register: the update trace still holds only the initial running update,
because the source tests written_bytes_total modulo 1048576 for zero
instead of testing that a boundary was crossed. -/
theorem mb_boundary_crossing_no_update (d1 d2 : Chunk)
    (h1 : d1.length = 1048575) (h2 : d2.length = 2) :
    ((writer_thread_func emptyFs initStatus 0 [⟨0, true⟩]
        [⟨0, .chunk d1, true, true, true⟩, ⟨0, .chunk d2, true, true, true⟩] 0).1).written_bytes_total
      = 1048577 ∧
    ((writer_thread_func emptyFs initStatus 0 [⟨0, true⟩]
        [⟨0, .chunk d1, true, true, true⟩, ⟨0, .chunk d2, true, true, true⟩] 0).1).updates
      = [⟨some true, none, some 0, 0⟩] ∧
    1048575 < 1048576 ∧ 1048576 < 1048577 := by
  have hd1 : d1 ≠ [] := by
    intro h
    rw [h] at h1
    simp at h1
  have hd2 : d2 ≠ [] := by
    intro h
    rw [h] at h2
    simp at h2
  refine ⟨?_, ?_, by norm_num, by norm_num⟩ <;>
    norm_num [writer_thread_func, openLoop, openWb, emptyFs, writerBody,
      writerLoop, writerStep, stepHeartbeat, stepFlush, recordUpdate,
      writeBytes, initStatus, WriterThreadStatus.update, hd1, hd2, h1, h2]

/-- Claim C6 witness: the crossing run with the concrete chunks. -/
theorem mb_boundary_crossing_no_update_witness :
    (List.replicate 1048575 (0 : Nat)).length = 1048575 ∧
    ([0, 0] : Chunk).length = 2 ∧
    (((writer_thread_func emptyFs initStatus 0 [⟨0, true⟩]
        [⟨0, .chunk (List.replicate 1048575 (0 : Nat)), true, true, true⟩,
         ⟨0, .chunk [0, 0], true, true, true⟩] 0).1).written_bytes_total
      = 1048577 ∧
    ((writer_thread_func emptyFs initStatus 0 [⟨0, true⟩]
        [⟨0, .chunk (List.replicate 1048575 (0 : Nat)), true, true, true⟩,
         ⟨0, .chunk [0, 0], true, true, true⟩] 0).1).updates
      = [⟨some true, none, some 0, 0⟩] ∧
    1048575 < 1048576 ∧ 1048576 < 1048577) :=
  ⟨by rw [List.length_replicate], rfl,
    mb_boundary_crossing_no_update _ _ (by rw [List.length_replicate]) rfl⟩

end Log2Bin
